import Mathlib

/-!
Verification of the TubeViT training script (`src/scripts/train.py`).

The script defines a video resize transform (`ResizedVideo`), a dataset
adapter (`MyUCF101`) over torchvision's UCF101 dataset, a metadata cache
load/store step, dataloader construction with random sub-samplers, a click
command-line surface, and a training pipeline that saves a checkpoint.

Python's dynamic values relevant to `ResizedVideo.__init__` are modelled by
`PyVal`; video clip tensors of shape (C, T, H, W) by `Tensor4`; the
filesystem by an association list `FS`.  Components that live in external
libraries (torchvision's `resize`, the `UCF101` constructor, the dataloader
and trainer) are modelled from the specification's stated contracts, as
noted on each definition.
-/

namespace TubeViT

/-- A Python value, as far as `ResizedVideo.__init__` can observe it:
an integer, a tuple, or a (non-tuple) Python list. -/
inductive PyVal where
  | int : Int → PyVal
  | tuple : List PyVal → PyVal
  | pylist : List PyVal → PyVal

/-- A 4-D video clip tensor of shape (C, T, H, W), with integer-valued
entries addressed by channel, time, row and column. -/
structure Tensor4 where
  C : Nat
  T : Nat
  H : Nat
  W : Nat
  data : Nat → Nat → Nat → Nat → Int

/-- Modelled from the spec: `torchvision.transforms._functional_video.resize`
is an external collaborator (not in `src/`).  Per the spec it "resizes a
video clip tensor's spatial dimensions to a target (height, width), leaving
channel and time dimensions unchanged"; entry values are sampled here by
index scaling (the interpolation mode only affects values, which no claim
constrains, so it is ignored for the data model). -/
def vresize (clip : Tensor4) (target_size : Nat × Nat) (_interpolation_mode : String) : Tensor4 :=
  { C := clip.C
    T := clip.T
    H := target_size.1
    W := target_size.2
    data := fun c t i j =>
      clip.data c t (i * clip.H / target_size.1) (j * clip.W / target_size.2) }

/-- The `ResizedVideo` transform object: its stored `size` attribute (a
Python value) and interpolation mode, exactly the two attributes set by
`__init__` in `src/scripts/train.py` lines 19-30. -/
structure ResizedVideo where
  size : PyVal
  interpolation_mode : String

/-- `ResizedVideo.__init__` (`src/scripts/train.py` lines 19-30):
if `size` is a tuple, assert its length is 2 and store it; otherwise store
`(size, size)`.  The failed assertion is modelled as an error result. -/
def ResizedVideo.init (size : PyVal) (interpolation_mode : String) :
    Except String ResizedVideo :=
  match size with
  | PyVal.tuple xs =>
      if xs.length = 2 then
        Except.ok ⟨PyVal.tuple xs, interpolation_mode⟩
      else
        Except.error "size should be tuple (height, width)"
  | s => Except.ok ⟨PyVal.tuple [s, s], interpolation_mode⟩

/-- `ResizedVideo.__call__` (`src/scripts/train.py` lines 32-40): delegates
to `resize(clip, self.size, self.interpolation_mode)`.  The external resize
accepts a target that is a pair of integers and fails otherwise (modelled
as an error result); a negative stored size is clamped via `Int.toNat`
(no claim exercises negative sizes). -/
def ResizedVideo.call (rv : ResizedVideo) (clip : Tensor4) : Except String Tensor4 :=
  match rv.size with
  | PyVal.tuple [PyVal.int hh, PyVal.int ww] =>
      Except.ok (vresize clip (hh.toNat, ww.toNat) rv.interpolation_mode)
  | _ => Except.error "resize: target size must be a pair of integers"

/-- Modelled from the spec: torchvision's `VideoClips` object (external,
not in `src/`).  `get_clip(idx)` returns the clip tensor and the index of
its source video (the audio and info components, unused by the adapter, are
omitted). -/
structure VideoClips where
  clips : List (Tensor4 × Nat)

/-- `VideoClips.get_clip`: index access into the clip list; out-of-range
access is a (fatal) indexing error, modelled as `none`. -/
def VideoClips.get_clip (vc : VideoClips) (idx : Nat) : Option (Tensor4 × Nat) :=
  vc.clips[idx]?

/-- The `MyUCF101` dataset adapter (`src/scripts/train.py` lines 49-61):
the base `UCF101` state it reads (`samples` as (path, label) pairs,
`indices` mapping the split's video positions to sample positions, and
`video_clips`), the base `transform`, and the `frame_transform` stored by
its `__init__`. -/
structure MyUCF101 where
  samples : List (String × Int)
  indices : List Nat
  video_clips : VideoClips
  transform : Option (Tensor4 → Tensor4)
  frame_transform : Option (Tensor4 → Tensor4)

/-- `MyUCF101.__getitem__` (`src/scripts/train.py` lines 54-61):
`video, audio, info, video_idx = self.video_clips.get_clip(idx)`;
`label = self.samples[self.indices[video_idx]][1]`; apply `self.transform`
to the video when present; return `(video, label)`.  Fatal indexing errors
are modelled as `none`. -/
def MyUCF101.getitem (d : MyUCF101) (idx : Nat) : Option (Tensor4 × Int) :=
  match d.video_clips.get_clip idx with
  | none => none
  | some (video, video_idx) =>
    match d.indices[video_idx]? with
    | none => none
    | some i =>
      match d.samples[i]? with
      | none => none
      | some sample =>
        let label := sample.2
        let video2 := match d.transform with
          | some t => t video
          | none => video
        some (video2, label)

/-- The dataset metadata persisted in the cache files.  Per the spec's data
model it describes "a dataset's indexed clips (video paths, clip
boundaries)". -/
structure MetaData where
  video_paths : List String
  clip_boundaries : List (Nat × Nat)

/-- A filesystem as an association list from paths to file contents; a
later write for the same path shadows an earlier one. -/
structure FS (α : Type) where
  files : List (String × α)

/-- Content of the file at a path, when it exists. -/
def FS.readFile (fs : FS α) (p : String) : Option α :=
  fs.files.lookup p

/-- `os.path.exists`. -/
def FS.pathExists (fs : FS α) (p : String) : Bool :=
  (fs.readFile p).isSome

/-- Writing (serializing) content to a path. -/
def FS.write (fs : FS α) (p : String) (v : α) : FS α :=
  ⟨(p, v) :: fs.files⟩

/-- The train split's metadata cache path (`src/scripts/train.py` line 92). -/
def trainMetadataFile : String := "ucf101-train-meta.pickle"

/-- The validation split's metadata cache path (`src/scripts/train.py` line 112). -/
def valMetadataFile : String := "ucf101-val-meta.pickle"

/-- Modelled from the spec: the external `UCF101` constructor "computes
metadata internally" when no `_precomputed_metadata` is supplied, and uses
the supplied, precomputed metadata otherwise.  Returns the dataset's
resulting metadata together with whether internal recomputation occurred;
the expensive indexing step is the argument `compute`. -/
def ucf101Metadata (precomputed : Option MetaData) (compute : Unit → MetaData) :
    MetaData × Bool :=
  match precomputed with
  | some m => (m, false)
  | none => (compute (), true)

/-- One split's metadata cache load/store step of `main`
(`src/scripts/train.py` lines 92-130, identical for train and validation):
if the cache file exists, deserialize it as the precomputed metadata;
construct the dataset; if the cache file did not exist, serialize the
dataset's metadata to the cache path.  Returns the resulting filesystem,
the dataset's metadata, and whether metadata was recomputed. -/
def setupSplit (fs : FS MetaData) (metadataFile : String) (compute : Unit → MetaData) :
    FS MetaData × MetaData × Bool :=
  let precomputed : Option MetaData :=
    if fs.pathExists metadataFile then fs.readFile metadataFile else none
  let ds := ucf101Metadata precomputed compute
  let fs2 := if fs.pathExists metadataFile then fs else fs.write metadataFile ds.1
  (fs2, ds.1, ds.2)

/-- `torch.utils.data.RandomSampler` as configured by `main`: only its
`num_samples` argument is set. -/
structure RandomSampler where
  num_samples : Nat

/-- `torch.utils.data.DataLoader` as configured by `main`: the keyword
arguments passed at `src/scripts/train.py` lines 133-146. -/
structure DataLoader where
  batch_size : Nat
  num_workers : Nat
  shuffle : Bool
  drop_last : Bool
  sampler : RandomSampler

/-- Sampler and dataloader construction of `main`
(`src/scripts/train.py` lines 132-146): each split's `RandomSampler` draws
`len(split) // 10` samples, and both dataloaders are built with
`shuffle=False, drop_last=True` and the given batch size and worker count.
Returns `(train_dataloader, val_dataloader)`. -/
def mkDataloaders (trainLen valLen batch_size num_workers : Nat) :
    DataLoader × DataLoader :=
  let train_sampler : RandomSampler := ⟨trainLen / 10⟩
  let train_dataloader : DataLoader :=
    ⟨batch_size, num_workers, false, true, train_sampler⟩
  let val_sampler : RandomSampler := ⟨valLen / 10⟩
  let val_dataloader : DataLoader :=
    ⟨batch_size, num_workers, false, true, val_sampler⟩
  (train_dataloader, val_dataloader)

/-- One command-line option of the click command: its long name, whether
it is `required=True`, whether it carries a default value, and whether its
type is `click.Path(exists=True)`. -/
structure OptSpec where
  name : String
  required : Bool
  hasDefault : Bool
  pathExistsCheck : Bool
deriving DecidableEq

/-- The ten options of the single click command
(`src/scripts/train.py` lines 64-74), in declaration order. -/
def cliOptions : List OptSpec :=
  [⟨"dataset-root", true, false, true⟩,
   ⟨"annotation-path", true, false, true⟩,
   ⟨"num-classes", false, true, false⟩,
   ⟨"batch-size", false, true, false⟩,
   ⟨"frames-per-clip", false, true, false⟩,
   ⟨"video-size", false, true, false⟩,
   ⟨"max-epochs", false, true, false⟩,
   ⟨"num-workers", false, true, false⟩,
   ⟨"fast-dev-run", false, true, false⟩,
   ⟨"seed", false, true, false⟩]

/-- Outcome of invoking the command: either click rejects the arguments at
parsing time, or the body of `main` runs. -/
inductive CliResult where
  | parseError : CliResult
  | ranMain : CliResult
deriving DecidableEq

/-- Modelled from the spec: click validates a `click.Path(exists=True)`
option at argument-parsing time, so a non-existent path fails the command
before any of `main`'s body runs.  `fsPaths` is the set of existing
filesystem paths. -/
def invokeCommand (fsPaths : List String) (dsRoot annPath : String) : CliResult :=
  if fsPaths.contains dsRoot && fsPaths.contains annPath then
    CliResult.ranMain
  else
    CliResult.parseError

/-- The fixed checkpoint output path (`src/scripts/train.py` line 162). -/
def checkpointPath : String := "./models/tubevit_ucf101.ckpt"

/-- Modelled from the spec: the number of batches a dataloader with the
given sample count yields; with `drop_last` "incomplete-final-batch
elements [are] dropped". -/
def numBatches (numSamples batch_size : Nat) (drop_last : Bool) : Nat :=
  if drop_last then numSamples / batch_size
  else (numSamples + batch_size - 1) / batch_size

/-- The tail of `main` after dataset construction
(`src/scripts/train.py` lines 132-162), with the external dataloader and
trainer modelled from the spec: build the samplers and dataloaders
(`drop_last=True`, one-tenth sub-sampling), draw one batch from the train
dataloader with `next(iter(train_dataloader))` to infer the input shape —
which raises `StopIteration` when the dataloader yields no batch — then run
the trainer (abbreviated under `fast_dev_run`) and save a checkpoint to
`checkpointPath`. -/
def runPipeline (trainClips valClips batch_size num_workers : Nat)
    (_fast_dev_run : Bool) (fs : FS String) : Except String (FS String) :=
  let loaders := mkDataloaders trainClips valClips batch_size num_workers
  let trainBatches :=
    numBatches loaders.1.sampler.num_samples loaders.1.batch_size loaders.1.drop_last
  if trainBatches = 0 then
    Except.error "StopIteration"
  else
    Except.ok (fs.write checkpointPath "checkpoint")

/-! ## Theorems -/

/-- Claim C1: for every 4-D video clip tensor of shape (C, T, H, W) and
every configured target size (h, w), applying the `ResizedVideo` transform
returns a tensor of the same rank whose spatial dimensions equal the target
size exactly, while the channel and time dimensions are unchanged. -/
theorem resizedVideo_call_shape (rv : ResizedVideo) (clip : Tensor4) (h w : Nat)
    (hs : rv.size = PyVal.tuple [PyVal.int (h : Int), PyVal.int (w : Int)]) :
    ∃ out, rv.call clip = Except.ok out ∧
      out.C = clip.C ∧ out.T = clip.T ∧ out.H = h ∧ out.W = w := by
  refine ⟨vresize clip (((h : Int)).toNat, ((w : Int)).toNat) rv.interpolation_mode,
    ?_, rfl, rfl, ?_, ?_⟩
  · simp [ResizedVideo.call, hs]
  · simp [vresize]
  · simp [vresize]

/-- Witness for C1: a transform with target size (5, 7) applied to a
3 × 4 × 10 × 20 clip yields a 3 × 4 × 5 × 7 tensor. -/
theorem resizedVideo_call_shape_witness :
    ∃ out,
      (ResizedVideo.mk (PyVal.tuple [PyVal.int ((5 : Nat) : Int), PyVal.int ((7 : Nat) : Int)])
        "bilinear").call (Tensor4.mk 3 4 10 20 (fun _ _ _ _ => 0)) = Except.ok out ∧
      out.C = 3 ∧ out.T = 4 ∧ out.H = 5 ∧ out.W = 7 :=
  resizedVideo_call_shape _ _ 5 7 rfl

/-- Claim C4: for every integer n, constructing `ResizedVideo` with the
single integer size n yields exactly the transform constructed with the
tuple (n, n) — both succeed with the stored target size (n, n) — so their
behaviour on every clip is identical. -/
theorem resizedVideo_init_int_eq_pair (n : Int) (m : String) :
    ResizedVideo.init (PyVal.int n) m =
      ResizedVideo.init (PyVal.tuple [PyVal.int n, PyVal.int n]) m ∧
    ResizedVideo.init (PyVal.int n) m =
      Except.ok ⟨PyVal.tuple [PyVal.int n, PyVal.int n], m⟩ := by
  exact ⟨rfl, rfl⟩

/-- Claim C5: constructing `ResizedVideo` with a tuple of length other
than 2 fails at construction time with the assertion message, before any
resize of any clip is attempted. -/
theorem resizedVideo_init_bad_tuple_fails (xs : List PyVal) (m : String)
    (h : xs.length ≠ 2) :
    ResizedVideo.init (PyVal.tuple xs) m =
      Except.error "size should be tuple (height, width)" := by
  simp [ResizedVideo.init, h]

/-- Witness for C5: a 3-tuple size fails construction. -/
theorem resizedVideo_init_bad_tuple_fails_witness :
    ResizedVideo.init (PyVal.tuple [PyVal.int 1, PyVal.int 2, PyVal.int 3]) "bilinear" =
      Except.error "size should be tuple (height, width)" :=
  resizedVideo_init_bad_tuple_fails _ _ (by decide)

/-- Claim C10: construction of `ResizedVideo` fails if and only if the
size argument is a tuple of length other than 2; for every non-tuple size
value (a Python list included), no length validation is performed and
construction succeeds with the stored size set to (size, size). -/
theorem resizedVideo_init_validation_iff (s : PyVal) (m : String) :
    ((∃ e, ResizedVideo.init s m = Except.error e) ↔
      ∃ xs, s = PyVal.tuple xs ∧ xs.length ≠ 2) ∧
    ((∀ xs, s ≠ PyVal.tuple xs) →
      ResizedVideo.init s m = Except.ok ⟨PyVal.tuple [s, s], m⟩) := by
  constructor
  · constructor
    · rintro ⟨e, he⟩
      cases s with
      | int n => simp [ResizedVideo.init] at he
      | pylist xs => simp [ResizedVideo.init] at he
      | tuple xs =>
        refine ⟨xs, rfl, fun hlen => ?_⟩
        simp [ResizedVideo.init, hlen] at he
    · rintro ⟨xs, rfl, hlen⟩
      exact ⟨"size should be tuple (height, width)", by simp [ResizedVideo.init, hlen]⟩
  · intro hnt
    cases s with
    | int n => rfl
    | pylist xs => rfl
    | tuple xs => exact absurd rfl (hnt xs)

/-- Witness for C10: a Python list size [224, 224] is not length-checked;
construction succeeds and stores the pair (size, size). -/
theorem resizedVideo_init_validation_iff_witness :
    ResizedVideo.init (PyVal.pylist [PyVal.int 224, PyVal.int 224]) "bilinear" =
      Except.ok ⟨PyVal.tuple [PyVal.pylist [PyVal.int 224, PyVal.int 224],
        PyVal.pylist [PyVal.int 224, PyVal.int 224]], "bilinear"⟩ :=
  (resizedVideo_init_validation_iff _ _).2 (fun _ h => PyVal.noConfusion h)

/-- Helper: reading back a freshly written path yields the written content. -/
theorem FS.readFile_write_self (fs : FS α) (p : String) (v : α) :
    (fs.write p v).readFile p = some v := by
  simp [FS.write, FS.readFile, List.lookup]

/-- Claim C2: the label returned by the adapter's index access equals the
underlying dataset's recorded label `samples[indices[video_idx]][1]` for
that index's source video, and it is the same for every configured
transform, including none. -/
theorem getitem_label_matches_samples (d : MyUCF101) (idx : Nat) (video : Tensor4)
    (vi si : Nat) (p : String) (label : Int)
    (h1 : d.video_clips.get_clip idx = some (video, vi))
    (h2 : d.indices[vi]? = some si)
    (h3 : d.samples[si]? = some (p, label)) :
    (∃ v, d.getitem idx = some (v, label)) ∧
    (∀ t, (MyUCF101.getitem { d with transform := t } idx).map Prod.snd = some label) := by
  constructor
  · cases ht : d.transform with
    | none => exact ⟨video, by simp [MyUCF101.getitem, h1, h2, h3, ht]⟩
    | some f => exact ⟨f video, by simp [MyUCF101.getitem, h1, h2, h3, ht]⟩
  · intro t
    cases t with
    | none => simp [MyUCF101.getitem, h1, h2, h3]
    | some f => simp [MyUCF101.getitem, h1, h2, h3]

/-- Witness for C2: a two-sample dataset whose single clip's source video
maps through `indices` to the second sample, so its label 3 is returned. -/
theorem getitem_label_matches_samples_witness :
    ∃ v, MyUCF101.getitem
      ⟨[("a", 7), ("b", 3)], [1], ⟨[(Tensor4.mk 1 1 1 1 (fun _ _ _ _ => 0), 0)]⟩,
        none, none⟩ 0 = some (v, 3) :=
  (getitem_label_matches_samples
    ⟨[("a", 7), ("b", 3)], [1], ⟨[(Tensor4.mk 1 1 1 1 (fun _ _ _ _ => 0), 0)]⟩,
      none, none⟩
    0 (Tensor4.mk 1 1 1 1 (fun _ _ _ _ => 0)) 0 1 "b" 3 rfl rfl rfl).1

/-- Claim C9: the (video, label) pair returned by the adapter's index
access is identical for any two values of the `frame_transform`
constructor argument: `frame_transform` is stored but never applied. -/
theorem getitem_frame_transform_unused (d : MyUCF101)
    (f g : Option (Tensor4 → Tensor4)) (idx : Nat) :
    MyUCF101.getitem { d with frame_transform := f } idx =
      MyUCF101.getitem { d with frame_transform := g } idx := rfl

/-- Claim C3: for a dataset split's cache step — if the cache file does not
exist beforehand, the computed metadata is serialized to the expected cache
path (so the file exists afterwards, holding the computed metadata); if it
exists, its content is supplied as precomputed metadata (the dataset's
metadata is the cached content), no recomputation occurs, and the
filesystem is unchanged.  Instantiated for both splits' paths
(`trainMetadataFile`, `valMetadataFile`) in the witness. -/
theorem setupSplit_cache_contract (fs : FS MetaData) (path : String)
    (compute : Unit → MetaData) :
    (fs.pathExists path = false →
      (setupSplit fs path compute).1.pathExists path = true ∧
      (setupSplit fs path compute).1.readFile path = some (compute ()) ∧
      (setupSplit fs path compute).2.2 = true) ∧
    (∀ m, fs.readFile path = some m →
      (setupSplit fs path compute).2.1 = m ∧
      (setupSplit fs path compute).2.2 = false ∧
      (setupSplit fs path compute).1 = fs) := by
  constructor
  · intro h
    have hn : fs.readFile path = none := by
      cases hr : fs.readFile path with
      | none => rfl
      | some m => rw [FS.pathExists, hr] at h; simp at h
    refine ⟨?_, ?_, ?_⟩ <;>
      simp [setupSplit, hn, ucf101Metadata, FS.pathExists, FS.readFile_write_self]
  · intro m hm
    refine ⟨?_, ?_, ?_⟩ <;> simp [setupSplit, FS.pathExists, hm, ucf101Metadata]

/-- Witness for C3: with an empty filesystem the train split's cache file
exists after the step; with the validation cache file present, the step
performs no recomputation. -/
theorem setupSplit_cache_contract_witness :
    ((setupSplit ⟨[]⟩ trainMetadataFile
        (fun _ => MetaData.mk ["v.avi"] [(0, 32)])).1.pathExists
        trainMetadataFile = true) ∧
    ((setupSplit ⟨[(valMetadataFile, MetaData.mk ["v.avi"] [(0, 32)])]⟩
        valMetadataFile (fun _ => MetaData.mk ["w.avi"] [])).2.2 = false) :=
  ⟨((setupSplit_cache_contract ⟨[]⟩ trainMetadataFile
      (fun _ => MetaData.mk ["v.avi"] [(0, 32)])).1 rfl).1,
   ((setupSplit_cache_contract ⟨[(valMetadataFile, MetaData.mk ["v.avi"] [(0, 32)])]⟩
      valMetadataFile (fun _ => MetaData.mk ["w.avi"] [])).2
      (MetaData.mk ["v.avi"] [(0, 32)]) rfl).2.1⟩

/-- Claim C6: for each split the random sub-sampler draws exactly one
tenth of the split's clip count (`len(split) // 10`), and both dataloaders
are built with `drop_last=True`. -/
theorem dataloaders_sampler_tenth_drop_last
    (trainLen valLen batch_size num_workers : Nat) :
    (mkDataloaders trainLen valLen batch_size num_workers).1.sampler.num_samples
        = trainLen / 10 ∧
    (mkDataloaders trainLen valLen batch_size num_workers).1.drop_last = true ∧
    (mkDataloaders trainLen valLen batch_size num_workers).2.sampler.num_samples
        = valLen / 10 ∧
    (mkDataloaders trainLen valLen batch_size num_workers).2.drop_last = true :=
  ⟨rfl, rfl, rfl, rfl⟩

/-- Counterexample to claim C7 as stated: with 20 clips per split and the
default batch size 32, the sampler draws 20 / 10 = 2 samples, `drop_last`
discards the incomplete batch, so `next(iter(train_dataloader))` raises
`StopIteration` — the run fails and no checkpoint is produced. -/
theorem runPipeline_twenty_clips_default_fails :
    runPipeline 20 20 32 0 true ⟨[]⟩ = Except.error "StopIteration" := rfl

/-- Claim C7 (amended): with 20 clips per split, the fast-dev-run flag,
and a batch size of at most 2 (instead of the default 32), the pipeline
completes and produces a checkpoint file at `./models/tubevit_ucf101.ckpt`. -/
theorem runPipeline_twenty_clips_small_batch (batch_size num_workers : Nat)
    (fs : FS String) (h1 : 0 < batch_size) (h2 : batch_size ≤ 2) :
    ∃ fs2, runPipeline 20 20 batch_size num_workers true fs = Except.ok fs2 ∧
      fs2.pathExists checkpointPath = true := by
  have hb : batch_size = 1 ∨ batch_size = 2 := by omega
  refine ⟨fs.write checkpointPath "checkpoint", ?_, ?_⟩
  · rcases hb with rfl | rfl <;> simp [runPipeline, mkDataloaders, numBatches]
  · simp [FS.pathExists, FS.readFile_write_self]

/-- Witness for C7 (amended): batch size 2 on an empty filesystem. -/
theorem runPipeline_twenty_clips_small_batch_witness :
    ∃ fs2, runPipeline 20 20 2 0 true ⟨[]⟩ = Except.ok fs2 ∧
      fs2.pathExists checkpointPath = true :=
  runPipeline_twenty_clips_small_batch 2 0 ⟨[]⟩ (by decide) (by decide)

/-- Claim C8: exactly the two path options (`dataset-root`,
`annotation-path`) lack defaults and are required; both are
existence-checked `click.Path` options, and a non-existent path makes the
command fail at parsing time, before `main`'s body runs. -/
theorem cli_options_contract :
    (∀ o ∈ cliOptions, o.hasDefault = false ↔
      (o.name = "dataset-root" ∨ o.name = "annotation-path")) ∧
    (∀ o ∈ cliOptions, o.required = true ↔
      (o.name = "dataset-root" ∨ o.name = "annotation-path")) ∧
    (∀ o ∈ cliOptions, o.required = true → o.pathExistsCheck = true) ∧
    (∀ fsPaths dsRoot annPath,
      (List.contains fsPaths dsRoot = false ∨ List.contains fsPaths annPath = false) →
      invokeCommand fsPaths dsRoot annPath = CliResult.parseError) := by
  refine ⟨by decide, by decide, by decide, ?_⟩
  intro fsPaths dsRoot annPath h
  unfold invokeCommand
  rcases h with h | h <;> rw [h] <;> simp

/-- Witness for C8: an annotation path missing from the filesystem fails
parsing. -/
theorem cli_options_contract_witness :
    invokeCommand ["/data"] "/data" "/missing" = CliResult.parseError :=
  cli_options_contract.2.2.2 ["/data"] "/data" "/missing" (Or.inr (by decide))

end TubeViT
